import Mathlib

/-!
Shallow embedding of the CXR triage pipeline core
(drsadivural/cxr-triage-app): threshold-driven status classification,
triage aggregation, deterministic report synthesis with LLM-rewrite
safety verification, probability calibration, and detector
non-maximum suppression.

Probabilities, thresholds and box coordinates are modelled over ℚ
(exact arithmetic standing in for Python floats); the temperature
calibration path, which composes `log` and `exp`, is modelled over ℝ.
-/

set_option maxRecDepth 4000

/-- Finding status values, as produced by the threshold cascade
(strings "NEG" / "POSSIBLE" / "UNCERTAIN" / "POSITIVE" in the source). -/
inductive Status where
  | NEG
  | POSSIBLE
  | UNCERTAIN
  | POSITIVE
deriving DecidableEq, Repr

/-- Embeds the threshold cascade of `determine_status`
(src/worker/app/tasks.py lines 225-232); the identical cascade appears in
`InferenceClient.parse_findings`
(src/backend/app/services/inference_client.py lines 148-155).
`prob` is the effective probability already extracted from the finding. -/
def determine_status (prob triage_threshold strong_threshold : ℚ) : Status :=
  if prob ≥ strong_threshold then .POSITIVE
  else if prob ≥ triage_threshold then .POSSIBLE
  else if prob ≥ triage_threshold * (7/10) then .UNCERTAIN
  else .NEG

/-- C1: with triage threshold t < strong threshold s, the status cascade
maps effective probability p to POSITIVE when p ≥ s, POSSIBLE when
t ≤ p < s, UNCERTAIN when 0.7·t ≤ p < t, and NEG otherwise; in
particular with t = 0.3 and s = 0.7: 0.8 ↦ POSITIVE, 0.5 ↦ POSSIBLE,
0.25 ↦ UNCERTAIN, 0.1 ↦ NEG. -/
theorem determine_status_spec (p t s : ℚ) (hts : t < s) :
    (s ≤ p → determine_status p t s = .POSITIVE) ∧
    (t ≤ p → p < s → determine_status p t s = .POSSIBLE) ∧
    (t * (7/10) ≤ p → p < t → determine_status p t s = .UNCERTAIN) ∧
    (p < t * (7/10) → p < t → p < s → determine_status p t s = .NEG) ∧
    determine_status (8/10) (3/10) (7/10) = .POSITIVE ∧
    determine_status (5/10) (3/10) (7/10) = .POSSIBLE ∧
    determine_status (25/100) (3/10) (7/10) = .UNCERTAIN ∧
    determine_status (1/10) (3/10) (7/10) = .NEG := by
  refine ⟨?_, ?_, ?_, ?_, by norm_num [determine_status], by norm_num [determine_status],
    by norm_num [determine_status], by norm_num [determine_status]⟩
  · intro h
    simp only [determine_status, ge_iff_le, if_pos h]
  · intro h1 h2
    simp only [determine_status, ge_iff_le]
    rw [if_neg (by linarith), if_pos h1]
  · intro h1 h2
    simp only [determine_status, ge_iff_le]
    rw [if_neg (by linarith), if_neg (by linarith), if_pos h1]
  · intro h1 h2 h3
    simp only [determine_status, ge_iff_le]
    rw [if_neg (by linarith), if_neg (by linarith), if_neg (by linarith)]

/-- Witness for C1 at p = 0.5, t = 0.3, s = 0.7. -/
theorem determine_status_spec_witness :
    ((3:ℚ)/10 < 7/10) ∧ determine_status (1/2) (3/10) (7/10) = .POSSIBLE :=
  ⟨by norm_num,
   (determine_status_spec (1/2) (3/10) (7/10) (by norm_num)).2.1
     (by norm_num) (by norm_num)⟩

/-- Embeds the Python string method `.lower()`, mapping each character
through `Char.toLower` (structural, so concrete instances evaluate). -/
def pyLower (s : String) : String := ⟨s.data.map Char.toLower⟩

/-- Character-list prefix test used to embed Python substring search. -/
def charsStartWith (needle hay : List Char) : Bool :=
  match needle, hay with
  | [], _ => true
  | _ :: _, [] => false
  | a :: as, b :: bs => a = b && charsStartWith as bs

/-- Character-list infix test used to embed Python substring search. -/
def charsContain (hay needle : List Char) : Bool :=
  match hay with
  | [] => needle.isEmpty
  | _ :: rest => charsStartWith needle hay || charsContain rest needle

/-- Per-finding threshold configuration (`FindingThreshold`,
src/backend/app/config.py lines 80-84). The pydantic model declares three
plain fields and no validator. -/
structure FindingThreshold where
  triage_threshold : ℚ
  strong_threshold : ℚ
  enabled : Bool
deriving DecidableEq, Repr

/-- Default-constructed `FindingThreshold()` (config.py lines 82-84). -/
def defaultFindingThreshold : FindingThreshold :=
  { triage_threshold := 3/10, strong_threshold := 7/10, enabled := true }

/-- Embeds pydantic construction of a `FindingThreshold` from configuration
data (config.py lines 80-84): the model performs only per-field type
validation, which the typed arguments already guarantee, and declares no
cross-field validator, so every pair of thresholds is accepted. -/
def loadFindingThreshold (triage_threshold strong_threshold : ℚ)
    (enabled : Bool) : Except String FindingThreshold :=
  .ok { triage_threshold := triage_threshold,
        strong_threshold := strong_threshold, enabled := enabled }

/-- Per-finding threshold fields of `AISettings`
(src/backend/app/config.py lines 87-117). -/
structure AISettings where
  pneumothorax : FindingThreshold
  pleural_effusion : FindingThreshold
  consolidation : FindingThreshold
  cardiomegaly : FindingThreshold
  edema : FindingThreshold
  nodule : FindingThreshold
  mass : FindingThreshold

/-- Embeds `AISettings.get_threshold` (config.py lines 106-117): dictionary
lookup on the lowercased finding name, defaulting to `FindingThreshold()`. -/
def AISettings.get_threshold (s : AISettings) (finding_name : String) :
    FindingThreshold :=
  let n := pyLower finding_name
  if n = "pneumothorax" then s.pneumothorax
  else if n = "pleural_effusion" then s.pleural_effusion
  else if n = "consolidation" then s.consolidation
  else if n = "cardiomegaly" then s.cardiomegaly
  else if n = "edema" then s.edema
  else if n = "nodule" then s.nodule
  else if n = "mass" then s.mass
  else defaultFindingThreshold

/-- Default `AISettings` field values (config.py lines 90-96). -/
def defaultAISettings : AISettings :=
  { pneumothorax := ⟨25/100, 65/100, true⟩
    pleural_effusion := ⟨30/100, 70/100, true⟩
    consolidation := ⟨35/100, 70/100, true⟩
    cardiomegaly := ⟨40/100, 75/100, true⟩
    edema := ⟨35/100, 70/100, true⟩
    nodule := ⟨30/100, 65/100, true⟩
    mass := ⟨25/100, 60/100, true⟩ }

/-- Classified finding (`FindingResult`, src/backend/app/schemas.py
lines 39-45); `calibrated_probability` is optional. -/
structure FindingResult where
  finding_name : String
  probability : ℚ
  calibrated_probability : Option ℚ
  status : Status
  triage_threshold : ℚ
  strong_threshold : ℚ
deriving DecidableEq, Repr

/-- Embeds the Python idiom
`finding.calibrated_probability or finding.probability`
(report_service.py lines 89 and 137): the raw probability is used when the
calibrated value is `None` or falsy `0.0`. -/
def effectiveProbability (f : FindingResult) : ℚ :=
  match f.calibrated_probability with
  | some c => if c = 0 then f.probability else c
  | none => f.probability

/-- Embeds `ReportGenerator._get_finding_status_key`
(src/backend/app/services/report_service.py lines 87-102). -/
def getFindingStatusKey (f : FindingResult) : String :=
  let prob := effectiveProbability f
  match f.status with
  | .POSITIVE => if prob ≥ f.strong_threshold then "POSITIVE_STRONG" else "POSITIVE"
  | .POSSIBLE => "POSSIBLE"
  | .UNCERTAIN => "UNCERTAIN"
  | .NEG => if prob < 1/10 then "NEG_STRONG" else "NEG"

/-- Embeds the `FINDING_TEMPLATES` table
(src/backend/app/services/report_service.py lines 11-68) as an
association list of (finding name, (status key, sentence)) entries. -/
def FINDING_TEMPLATES : List (String × List (String × String)) :=
  [("pneumothorax",
    [("POSITIVE_STRONG", "There is evidence of pneumothorax."),
     ("POSITIVE", "Findings suggestive of pneumothorax. Clinical correlation recommended."),
     ("POSSIBLE", "Cannot exclude small pneumothorax. Recommend clinical correlation and consider follow-up imaging if clinically indicated."),
     ("UNCERTAIN", "Equivocal findings in the pleural space. Cannot exclude pneumothorax. Radiologist review recommended."),
     ("NEG_STRONG", "No pneumothorax identified."),
     ("NEG", "No definite pneumothorax seen on this examination.")]),
   ("pleural_effusion",
    [("POSITIVE_STRONG", "Pleural effusion is present."),
     ("POSITIVE", "Findings consistent with pleural effusion."),
     ("POSSIBLE", "Possible small pleural effusion. Clinical correlation recommended."),
     ("UNCERTAIN", "Equivocal findings at the costophrenic angle. Cannot exclude small effusion."),
     ("NEG_STRONG", "No pleural effusion."),
     ("NEG", "No significant pleural effusion identified.")]),
   ("consolidation",
    [("POSITIVE_STRONG", "Pulmonary consolidation is present, which may represent pneumonia or other airspace disease."),
     ("POSITIVE", "Findings suggestive of consolidation. Clinical correlation for infection or other etiology recommended."),
     ("POSSIBLE", "Possible area of consolidation. Recommend clinical correlation."),
     ("UNCERTAIN", "Equivocal opacity that may represent consolidation. Further evaluation may be warranted."),
     ("NEG_STRONG", "No consolidation identified."),
     ("NEG", "No definite consolidation seen.")]),
   ("cardiomegaly",
    [("POSITIVE_STRONG", "The cardiac silhouette is enlarged, consistent with cardiomegaly."),
     ("POSITIVE", "The heart appears enlarged. Clinical correlation recommended."),
     ("POSSIBLE", "The cardiac silhouette is at the upper limits of normal. Possible mild cardiomegaly."),
     ("UNCERTAIN", "Cardiac silhouette size is difficult to assess. Consider dedicated cardiac imaging if clinically indicated."),
     ("NEG_STRONG", "Normal cardiac silhouette size."),
     ("NEG", "The cardiac silhouette is within normal limits.")]),
   ("edema",
    [("POSITIVE_STRONG", "Findings consistent with pulmonary edema."),
     ("POSITIVE", "Interstitial markings suggestive of pulmonary edema. Clinical correlation recommended."),
     ("POSSIBLE", "Possible mild pulmonary edema. Recommend clinical correlation."),
     ("UNCERTAIN", "Equivocal interstitial markings. Cannot exclude early pulmonary edema."),
     ("NEG_STRONG", "No pulmonary edema."),
     ("NEG", "No significant pulmonary edema identified.")]),
   ("nodule",
    [("POSITIVE_STRONG", "Pulmonary nodule identified. Further evaluation with CT recommended."),
     ("POSITIVE", "Possible pulmonary nodule. Consider CT for further characterization."),
     ("POSSIBLE", "Questionable nodular opacity. CT may be considered for further evaluation if clinically indicated."),
     ("UNCERTAIN", "Equivocal finding that may represent a nodule. Clinical correlation and possible follow-up recommended."),
     ("NEG_STRONG", "No pulmonary nodules identified."),
     ("NEG", "No definite pulmonary nodules seen on this examination.")]),
   ("mass",
    [("POSITIVE_STRONG", "Pulmonary mass identified. Urgent CT and clinical correlation recommended."),
     ("POSITIVE", "Findings suggestive of pulmonary mass. CT recommended for further evaluation."),
     ("POSSIBLE", "Possible pulmonary mass. Further imaging recommended."),
     ("UNCERTAIN", "Equivocal opacity that may represent a mass. Further evaluation recommended."),
     ("NEG_STRONG", "No pulmonary masses identified."),
     ("NEG", "No definite pulmonary masses seen.")])]

/-- Dictionary lookup `FINDING_TEMPLATES.get(name, {}).get(key)`. -/
def lookupTemplate (nm key : String) : Option String :=
  match FINDING_TEMPLATES.find? (fun e => e.1 = nm) with
  | some e => (e.2.find? (fun p => p.1 = key)).map Prod.snd
  | none => none

/-- Embeds `ReportGenerator._generate_finding_text`
(report_service.py lines 104-123): table lookup keyed by normalized
finding name and status key, with a generic status-keyed fallback. -/
def generateFindingText (f : FindingResult) : String :=
  let nm := (pyLower f.finding_name).replace " " "_"
  match lookupTemplate nm (getFindingStatusKey f) with
  | some t => t
  | none =>
    match f.status with
    | .POSITIVE => "Findings suggestive of " ++ f.finding_name ++ "."
    | .POSSIBLE => "Possible " ++ f.finding_name ++ ". Clinical correlation recommended."
    | .UNCERTAIN => "Cannot exclude " ++ f.finding_name ++ ". Radiologist review recommended."
    | .NEG => "No significant " ++ f.finding_name ++ " identified."

/-- Embeds `ReportGenerator._categorize_findings`
(report_service.py lines 125-148); returns the
(urgent, routine, uncertain, negative) name lists in input order,
skipping findings whose threshold entry is disabled. -/
def categorizeFindings (s : AISettings) :
    List FindingResult → List String × List String × List String × List String
  | [] => ([], [], [], [])
  | f :: rest =>
    let (u, r, un, n) := categorizeFindings s rest
    let th := s.get_threshold f.finding_name
    if th.enabled then
      let prob := effectiveProbability f
      if f.status = .POSITIVE ∧ prob ≥ th.strong_threshold then
        (f.finding_name :: u, r, un, n)
      else if f.status = .POSITIVE ∨ f.status = .POSSIBLE then
        (u, f.finding_name :: r, un, n)
      else if f.status = .UNCERTAIN then
        (u, r, f.finding_name :: un, n)
      else
        (u, r, un, f.finding_name :: n)
    else (u, r, un, n)

/-- Embeds `ReportGenerator.determine_triage`
(report_service.py lines 221-243). -/
def determine_triage (s : AISettings) (findings : List FindingResult) :
    String × List String :=
  let (urgent, routine, uncertain, _) := categorizeFindings s findings
  if urgent ≠ [] then
    ("URGENT", urgent.map (fun f => "High confidence " ++ f ++ " detected"))
  else if routine ≠ [] then
    ("ROUTINE", routine.map (fun f => "Possible " ++ f ++ " detected"))
  else if uncertain ≠ [] then
    ("ROUTINE", uncertain.map (fun f => "Uncertain " ++ f ++ " - needs review"))
  else
    ("NORMAL", ["No significant abnormalities detected"])

/-- Embeds `ReportGenerator._generate_impression`
(report_service.py lines 150-173), including the interpolation performed
by `IMPRESSION_TEMPLATES[...].format(...)` (lines 70-75); returns
(impression text, triage level). -/
def generateImpression (s : AISettings) (findings : List FindingResult) :
    String × String :=
  let (urgent, routine, uncertain, _) := categorizeFindings s findings
  if urgent ≠ [] then
    ("URGENT: " ++ String.intercalate ", " urgent ++
       ". Immediate clinical attention recommended.", "URGENT")
  else if routine ≠ [] then
    ("Abnormal chest radiograph with " ++ String.intercalate ", " routine ++
       ". Clinical correlation recommended.", "ROUTINE")
  else if uncertain ≠ [] then
    ("Limited examination with equivocal findings. Radiologist review recommended. " ++
       ("Cannot exclude: " ++ String.intercalate ", " uncertain), "ROUTINE")
  else
    ("No acute cardiopulmonary abnormality identified.", "NORMAL")

/-- Findings retained by the report loop in
`ReportGenerator.generate_report` (report_service.py lines 181-188): the
loop skips findings whose threshold entry is disabled. -/
def enabledFindings (s : AISettings) (findings : List FindingResult) :
    List FindingResult :=
  findings.filter (fun f => (s.get_threshold f.finding_name).enabled)

/-- Deterministic findings section built by `generate_report`
(report_service.py line 190). -/
def templateFindingsText (s : AISettings) (findings : List FindingResult) :
    String :=
  let texts := (enabledFindings s findings).map generateFindingText
  if texts = [] then "No significant abnormalities identified."
  else String.intercalate " " texts

/-- Substring test mirroring the Python `in` operator on strings; the
empty needle occurs in every string. -/
def containsSub (hay needle : String) : Bool :=
  charsContain hay.data needle.data

/-- Embeds the `medical_terms` vocabulary of
`LLMService._verify_no_new_findings`
(src/backend/app/services/llm_service.py lines 202-209). -/
def MEDICAL_TERMS : List String :=
  ["pneumothorax", "pleural effusion", "effusion", "consolidation",
   "atelectasis", "cardiomegaly", "edema", "pulmonary edema",
   "nodule", "mass", "tumor", "cancer", "malignancy",
   "pneumonia", "infiltrate", "opacity", "lesion",
   "fracture", "emphysema", "fibrosis", "calcification",
   "lymphadenopathy", "mediastinal widening", "aortic aneurysm"]

/-- Embeds the `negation_patterns` list built per term
(llm_service.py lines 226-229). -/
def negationPatterns (term : String) : List String :=
  ["no " ++ term, "no evidence of " ++ term, "without " ++ term,
   "negative for " ++ term, "absent " ++ term, "no significant " ++ term]

/-- Embeds `LLMService._verify_no_new_findings`
(llm_service.py lines 196-236): `true` iff every vocabulary term present
in the rewritten text is either a substring match against some original
finding name (in either direction) or wrapped in a negation pattern. -/
def verifyNoNewFindings (rewritten_text : String)
    (original_findings : List String) : Bool :=
  let rewritten_lower := pyLower rewritten_text
  let original_lower := original_findings.map pyLower
  MEDICAL_TERMS.all (fun term =>
    if containsSub rewritten_lower term then
      if original_lower.any
          (fun orig => containsSub orig term || containsSub term orig) then
        true
      else
        (negationPatterns term).any
          (fun neg => containsSub rewritten_lower neg)
    else true)

/-- Embeds `LLMService.rewrite_report` (llm_service.py lines 175-194).
The external provider call is abstracted by `provider_outcome`: `none`
models a raised exception or timeout, `some txt` a returned completion;
`available` models `is_available()`. The result is `none` whenever the
provider is unavailable, fails, or the safety verifier rejects the text. -/
def LLMService.rewrite_report (available : Bool)
    (provider_outcome : Option String) (findings : List String) :
    Option String :=
  if available then
    match provider_outcome with
    | none => none
    | some rewritten =>
      if verifyNoNewFindings rewritten findings then some rewritten else none
  else none

/-- Fixed disclaimer string (report_service.py line 77). -/
def DISCLAIMER : String :=
  "AI assistance only. Not for standalone diagnosis. All findings require radiologist review."

/-- Report produced by `generate_report`
(`ReportResult`, src/backend/app/schemas.py lines 61-65). -/
structure ReportResult where
  findings_text : String
  impression_text : String
  llm_rewritten : Bool
  disclaimer : String
deriving DecidableEq, Repr

/-- Embeds `ReportGenerator.generate_report`
(report_service.py lines 175-219): deterministic template synthesis,
optional rewrite attempt when the LLM service is available, acceptance
parsing on the section markers, and fallback to the template text with
`llm_rewritten = false` when no rewrite is accepted. The Python
`if rewritten:` guard is false for `None` and for the empty string. -/
def generate_report (s : AISettings) (findings : List FindingResult)
    (llm_available : Bool) (provider_outcome : Option String) : ReportResult :=
  let finding_names := (enabledFindings s findings).map (fun f => f.finding_name)
  let findings_text := templateFindingsText s findings
  let impression_text := (generateImpression s findings).1
  let rewritten? :=
    if llm_available then
      LLMService.rewrite_report llm_available provider_outcome finding_names
    else none
  match rewritten? with
  | some rewritten =>
    if rewritten.isEmpty then
      { findings_text := findings_text, impression_text := impression_text,
        llm_rewritten := false, disclaimer := DISCLAIMER }
    else if containsSub rewritten "FINDINGS:" && containsSub rewritten "IMPRESSION:" then
      let parts := rewritten.splitOn "IMPRESSION:"
      { findings_text := ((parts.headD "").replace "FINDINGS:" "").trim,
        impression_text :=
          if parts.length > 1 then (parts.getD 1 "").trim else impression_text,
        llm_rewritten := true, disclaimer := DISCLAIMER }
    else
      { findings_text := rewritten, impression_text := impression_text,
        llm_rewritten := true, disclaimer := DISCLAIMER }
  | none =>
    { findings_text := findings_text, impression_text := impression_text,
      llm_rewritten := false, disclaimer := DISCLAIMER }

/-- Finding dictionary consumed by the worker task
(src/worker/app/tasks.py): both probability keys may be absent. -/
structure WorkerFinding where
  name : String
  probability : Option ℚ
  calibrated_probability : Option ℚ
deriving DecidableEq, Repr

/-- Embeds the effective probability extraction of the worker
`determine_status` (tasks.py line 217):
`finding.get("calibrated_probability", finding.get("probability", 0))`.
Unlike the backend `or` idiom, `dict.get` is presence-based, so a
calibrated value of 0 is used as-is. -/
def workerEffectiveProb (f : WorkerFinding) : ℚ :=
  match f.calibrated_probability with
  | some c => c
  | none => f.probability.getD 0

/-- Embeds the worker `determine_status` (tasks.py lines 215-232);
`thresholds` models `settings["thresholds"]`, with defaults
0.3 / 0.7 for missing entries. The `enabled` field of an entry is never
read by the worker. -/
def worker_determine_status (thresholds : String → Option FindingThreshold)
    (f : WorkerFinding) : Status :=
  let prob := workerEffectiveProb f
  match thresholds (pyLower f.name) with
  | some th => determine_status prob th.triage_threshold th.strong_threshold
  | none => determine_status prob (3/10) (7/10)

/-- Embeds the worker `determine_triage` (tasks.py lines 235-252):
POSITIVE findings are urgent; POSSIBLE and UNCERTAIN findings are both
routine, with the reason text "Possible {name} detected". -/
def worker_determine_triage (thresholds : String → Option FindingThreshold)
    (findings : List WorkerFinding) : String × List String :=
  let urgent_findings :=
    (findings.filter (fun f => worker_determine_status thresholds f = .POSITIVE)).map
      (fun f => f.name)
  let routine_findings :=
    (findings.filter (fun f => worker_determine_status thresholds f = .POSSIBLE ∨
        worker_determine_status thresholds f = .UNCERTAIN)).map
      (fun f => f.name)
  if urgent_findings ≠ [] then
    ("URGENT", urgent_findings.map (fun f => "High confidence " ++ f ++ " detected"))
  else if routine_findings ≠ [] then
    ("ROUTINE", routine_findings.map (fun f => "Possible " ++ f ++ " detected"))
  else
    ("NORMAL", ["No significant abnormalities detected"])

/-- C4 counterexample: a threshold configuration with
triage_threshold = 0.9 ≥ strong_threshold = 0.1 is accepted by
configuration loading, contradicting the claim that every such
configuration is rejected with a validation error. -/
theorem loadFindingThreshold_accepts_invalid :
    loadFindingThreshold (9/10) (1/10) true =
      .ok { triage_threshold := 9/10, strong_threshold := 1/10, enabled := true } ∧
    ¬((9:ℚ)/10 < 1/10) :=
  ⟨rfl, by norm_num⟩

/-- C4 amended: `FindingThreshold` declares no validator, so configuration
loading performs no cross-field threshold check and accepts every pair of
thresholds, including those violating triage_threshold < strong_threshold. -/
theorem loadFindingThreshold_never_rejects (t s : ℚ) (e : Bool) :
    loadFindingThreshold t s e =
      .ok { triage_threshold := t, strong_threshold := s, enabled := e } := rfl

/-- C2 amended: whenever the backend aggregator categorizes the enabled
findings into no urgent and no routine finding but at least one uncertain
finding, `ReportGenerator.determine_triage` returns level ROUTINE (never
URGENT) with one reason per uncertain finding of the exact form
"Uncertain {name} - needs review"; the worker aggregator also returns
ROUTINE in this situation but words its reasons "Possible {name} detected"
(see the counterexample to the original claim). -/
theorem determine_triage_uncertain_routine (s : AISettings)
    (findings : List FindingResult) (uncertain negative : List String)
    (hcat : categorizeFindings s findings = ([], [], uncertain, negative))
    (hne : uncertain ≠ []) :
    determine_triage s findings =
      ("ROUTINE", uncertain.map (fun n => "Uncertain " ++ n ++ " - needs review")) := by
  unfold determine_triage
  rw [hcat]
  simp [hne]

/-- Witness for the amended C2 on one enabled UNCERTAIN pneumothorax
finding under default settings. -/
theorem determine_triage_uncertain_routine_witness :
    (categorizeFindings defaultAISettings
        [⟨"pneumothorax", 1/5, some (1/5), .UNCERTAIN, 1/4, 13/20⟩] =
      ([], [], ["pneumothorax"], [])) ∧
    determine_triage defaultAISettings
        [⟨"pneumothorax", 1/5, some (1/5), .UNCERTAIN, 1/4, 13/20⟩] =
      ("ROUTINE", ["Uncertain pneumothorax - needs review"]) := by
  have hth : defaultAISettings.get_threshold "pneumothorax" = ⟨25/100, 65/100, true⟩ := by
    have h1 : pyLower "pneumothorax" = "pneumothorax" := by decide
    simp [AISettings.get_threshold, h1, defaultAISettings]
  have hcat : categorizeFindings defaultAISettings
        [⟨"pneumothorax", 1/5, some (1/5), .UNCERTAIN, 1/4, 13/20⟩] =
      ([], [], ["pneumothorax"], []) := by
    simp [categorizeFindings, hth, effectiveProbability]
  refine ⟨hcat, ?_⟩
  rw [determine_triage_uncertain_routine defaultAISettings _ _ _ hcat (by simp)]
  decide

/-- C2 counterexample: on a findings list whose single finding is
UNCERTAIN (probability 0.25 against default thresholds 0.3/0.7), the
worker aggregator `determine_triage` (tasks.py lines 235-252) returns
level ROUTINE but words the reason "Possible opacity detected", not the
claimed exact form "Uncertain opacity - needs review". -/
theorem worker_uncertain_reason_counterexample :
    worker_determine_triage (fun _ => none)
        [⟨"opacity", some (1/4), some (1/4)⟩] =
      ("ROUTINE", ["Possible opacity detected"]) ∧
    (("ROUTINE", ["Possible opacity detected"]) :
        String × List String) ≠
      ("ROUTINE", ["Uncertain opacity - needs review"]) := by
  have hst : worker_determine_status (fun _ => none)
      ⟨"opacity", some (1/4), some (1/4)⟩ = .UNCERTAIN := by
    simp only [worker_determine_status, workerEffectiveProb]
    norm_num [determine_status]
  constructor
  · simp only [worker_determine_triage, List.filter_cons, List.filter_nil, hst]
    simp
  · decide

/-- Restricting to enabled findings is idempotent. -/
theorem enabledFindings_idem (s : AISettings) (findings : List FindingResult) :
    enabledFindings s (enabledFindings s findings) = enabledFindings s findings := by
  simp [enabledFindings, List.filter_filter]

/-- Categorization skips disabled findings, so it coincides with the
categorization of the enabled findings alone. -/
theorem categorizeFindings_enabledFindings (s : AISettings)
    (findings : List FindingResult) :
    categorizeFindings s findings = categorizeFindings s (enabledFindings s findings) := by
  induction findings with
  | nil => rfl
  | cons f rest ih =>
    by_cases h : (s.get_threshold f.finding_name).enabled
    · rw [show enabledFindings s (f :: rest) = f :: enabledFindings s rest by
        simp [enabledFindings, h]]
      rw [categorizeFindings, categorizeFindings, ← ih]
    · rw [show enabledFindings s (f :: rest) = enabledFindings s rest by
        simp [enabledFindings, h]]
      rw [categorizeFindings, ← ih]
      simp [h]

/-- C5 amended: in the backend report generator, findings whose threshold
entry has enabled = false contribute nothing to categorization, the triage
level and reasons, the findings text, or the impression text: every output
equals the one computed from the enabled findings alone. (The worker
aggregator, by contrast, never reads the enabled flag — see the
counterexample to the original claim.) -/
theorem report_outputs_ignore_disabled (s : AISettings)
    (findings : List FindingResult) :
    categorizeFindings s findings = categorizeFindings s (enabledFindings s findings) ∧
    determine_triage s findings = determine_triage s (enabledFindings s findings) ∧
    templateFindingsText s findings = templateFindingsText s (enabledFindings s findings) ∧
    generateImpression s findings = generateImpression s (enabledFindings s findings) ∧
    ∀ avail prov, generate_report s findings avail prov =
      generate_report s (enabledFindings s findings) avail prov := by
  have hcat := categorizeFindings_enabledFindings s findings
  have htext : templateFindingsText s findings =
      templateFindingsText s (enabledFindings s findings) := by
    rw [templateFindingsText, templateFindingsText, enabledFindings_idem]
  have himp : generateImpression s findings =
      generateImpression s (enabledFindings s findings) := by
    rw [generateImpression, generateImpression, hcat]
  refine ⟨hcat, ?_, htext, himp, ?_⟩
  · rw [determine_triage, determine_triage, hcat]
  · intro avail prov
    rw [generate_report, generate_report, enabledFindings_idem, htext, himp]

/-- C5 counterexample: the worker triage aggregator ignores the enabled
flag. With the thresholds entry for "mass" disabled
(enabled = false, thresholds 0.25/0.6) and a single mass finding of
probability 0.9, the worker returns level URGENT with a mass reason,
whereas the enabled findings alone (the empty list) yield NORMAL: a
disabled finding changed the triage level and reasons. -/
theorem worker_triage_disabled_counterexample :
    worker_determine_triage
        (fun n => if n = "mass" then some ⟨1/4, 3/5, false⟩ else none)
        [⟨"mass", some (9/10), some (9/10)⟩] =
      ("URGENT", ["High confidence mass detected"]) ∧
    worker_determine_triage
        (fun n => if n = "mass" then some ⟨1/4, 3/5, false⟩ else none)
        [] =
      ("NORMAL", ["No significant abnormalities detected"]) ∧
    ("URGENT" : String) ≠ "NORMAL" := by
  have hst : worker_determine_status
      (fun n => if n = "mass" then some ⟨1/4, 3/5, false⟩ else none)
      ⟨"mass", some (9/10), some (9/10)⟩ = .POSITIVE := by
    have h1 : pyLower "mass" = "mass" := by decide
    simp only [worker_determine_status, workerEffectiveProb, h1]
    norm_num [determine_status]
  refine ⟨?_, by simp [worker_determine_triage], by decide⟩
  simp only [worker_determine_triage, List.filter_cons, List.filter_nil, hst]
  simp

/-- C3: whenever the rewrite provider fails (raises or times out, modelled
by provider outcome `none`) or the safety verifier rejects the rewritten
text, the returned report has llm_rewritten = false and its findings and
impression text are exactly the deterministic template text, unchanged. -/
theorem generate_report_fallback (s : AISettings) (findings : List FindingResult)
    (avail : Bool) (prov : Option String)
    (h : prov = none ∨ ∃ txt, prov = some txt ∧
      verifyNoNewFindings txt
        ((enabledFindings s findings).map (fun f => f.finding_name)) = false) :
    (generate_report s findings avail prov).llm_rewritten = false ∧
    (generate_report s findings avail prov).findings_text =
      templateFindingsText s findings ∧
    (generate_report s findings avail prov).impression_text =
      (generateImpression s findings).1 := by
  rcases h with rfl | ⟨txt, rfl, hv⟩
  · cases avail <;> simp [generate_report, LLMService.rewrite_report]
  · cases avail <;> simp [generate_report, LLMService.rewrite_report, hv]

/-- Witness for C3: the provider returns "There is a mass." while the only
original finding name is "pneumothorax"; the verifier rejects the new
positively-asserted term "mass", so the report is not rewritten. -/
theorem generate_report_fallback_witness :
    ((some "There is a mass." = (none : Option String)) ∨
      ∃ txt, some "There is a mass." = some txt ∧
        verifyNoNewFindings txt
          ((enabledFindings defaultAISettings
            [⟨"pneumothorax", 4/5, some (4/5), .POSITIVE, 1/4, 13/20⟩]).map
              (fun f => f.finding_name)) = false) ∧
    (generate_report defaultAISettings
        [⟨"pneumothorax", 4/5, some (4/5), .POSITIVE, 1/4, 13/20⟩]
        true (some "There is a mass.")).llm_rewritten = false := by
  have hv : verifyNoNewFindings "There is a mass."
      ((enabledFindings defaultAISettings
        [⟨"pneumothorax", 4/5, some (4/5), .POSITIVE, 1/4, 13/20⟩]).map
          (fun f => f.finding_name)) = false := by decide
  exact ⟨Or.inr ⟨_, rfl, hv⟩,
    (generate_report_fallback defaultAISettings _ true _ (Or.inr ⟨_, rfl, hv⟩)).1⟩

/-- C9: with the rewrite phase not attempted, report synthesis is a pure
function of the findings and settings: two invocations produce equal
(byte-identical) findings and impression text, independent of the provider
outcome parameter, and that text is the deterministic template text. -/
theorem generate_report_deterministic (s : AISettings)
    (findings : List FindingResult) (prov1 prov2 : Option String) :
    (generate_report s findings false prov1).findings_text =
      (generate_report s findings false prov2).findings_text ∧
    (generate_report s findings false prov1).impression_text =
      (generate_report s findings false prov2).impression_text ∧
    (generate_report s findings false prov1).findings_text =
      templateFindingsText s findings ∧
    (generate_report s findings false prov1).impression_text =
      (generateImpression s findings).1 := by
  simp [generate_report]

/-- C10: a finding whose calibrated probability is exactly 0 is treated by
the `or` fallback as if the calibrated value were absent: template-key
selection and triage categorization use the raw probability as the
effective probability, and such a finding is rendered NEG_STRONG exactly
when its status is NEG and its raw probability is below 0.1. -/
theorem calibrated_zero_uses_raw (f : FindingResult)
    (h : f.calibrated_probability = some 0) :
    effectiveProbability f = f.probability ∧
    getFindingStatusKey f =
      getFindingStatusKey { f with calibrated_probability := none } ∧
    (∀ s : AISettings, categorizeFindings s [f] =
      categorizeFindings s [{ f with calibrated_probability := none }]) ∧
    (getFindingStatusKey f = "NEG_STRONG" ↔
      f.status = .NEG ∧ f.probability < 1/10) := by
  obtain ⟨nm, prob, cal, st, tt, sthr⟩ := f
  simp only [FindingResult.calibrated_probability] at h
  subst h
  refine ⟨by simp [effectiveProbability], ?_, ?_, ?_⟩
  · cases st <;> simp [getFindingStatusKey, effectiveProbability]
  · intro s
    simp only [categorizeFindings, effectiveProbability]
    norm_num
  · cases st <;> simp [getFindingStatusKey, effectiveProbability]
    split <;> simp_all

/-- Witness for C10 on a NEG nodule finding with calibrated probability 0
and raw probability 0.05. -/
theorem calibrated_zero_uses_raw_witness :
    ((⟨"nodule", 1/20, some 0, .NEG, 3/10, 13/20⟩ :
        FindingResult).calibrated_probability = some 0) ∧
    effectiveProbability ⟨"nodule", 1/20, some 0, .NEG, 3/10, 13/20⟩ = 1/20 :=
  ⟨rfl, (calibrated_zero_uses_raw _ rfl).1⟩

/-- Epsilon guard 1e-8 added inside the logit conversion of
`CXRClassifier.predict` (src/inference/app/classifier.py line 208). -/
noncomputable def epsGuard : ℝ := 1 / 100000000

/-- Embeds `TemperatureScaling.calibrate`
(src/inference/app/classifier.py lines 32-34): logits divided by the
temperature. -/
noncomputable def TemperatureScaling.calibrate (temperature logits : ℝ) : ℝ :=
  logits / temperature

/-- Embeds the temperature-scaling branch of `CXRClassifier.predict`
(classifier.py lines 206-210): convert the raw probability to a logit with
the 1e-8 epsilon guard in the denominator, scale the logit by the
temperature, convert back through the sigmoid. -/
noncomputable def predictTemperatureCalibrated (temperature raw_prob : ℝ) : ℝ :=
  let logit := Real.log (raw_prob / (1 - raw_prob + epsGuard))
  let calibrated_logit := TemperatureScaling.calibrate temperature logit
  1 / (1 + Real.exp (-calibrated_logit))

/-- Closed form of the temperature-1 calibration path: because of the
epsilon guard, the composition sigmoid ∘ logit sends p to p/(1 + 1e-8). -/
theorem predictTemperatureCalibrated_one (p : ℝ) (h0 : 0 < p) (h1 : p < 1) :
    predictTemperatureCalibrated 1 p = p / (1 + epsGuard) := by
  have heps : (0:ℝ) < epsGuard := by norm_num [epsGuard]
  have hd : 0 < 1 - p + epsGuard := by linarith
  have hx : 0 < p / (1 - p + epsGuard) := div_pos h0 hd
  unfold predictTemperatureCalibrated TemperatureScaling.calibrate
  simp only [div_one]
  rw [Real.exp_neg, Real.exp_log hx]
  rw [inv_div]
  field_simp
  left
  ring

/-- C6 counterexample: at p = 0.5 the temperature-1 calibration path does
not return p: the epsilon guard makes the result 0.5/(1 + 1e-8) < 0.5, so
the composition is not the identity map on (0,1). -/
theorem temperature_one_epsilon_counterexample :
    predictTemperatureCalibrated 1 (1/2) ≠ 1/2 ∧
    predictTemperatureCalibrated 1 (1/2) = (1/2) / (1 + epsGuard) := by
  have heq := predictTemperatureCalibrated_one (1/2) (by norm_num) (by norm_num)
  refine ⟨?_, heq⟩
  rw [heq]
  norm_num [epsGuard]

/-- C6 amended: for every p in (0,1), temperature scaling with t = 1
composed with the epsilon-guarded logit conversion of the implementation maps p
to exactly p/(1 + 1e-8), which is never equal to p: the map is the
identity only up to the epsilon guard, not exactly. -/
theorem temperature_one_scales_by_epsilon (p : ℝ) (h0 : 0 < p) (h1 : p < 1) :
    predictTemperatureCalibrated 1 p = p / (1 + epsGuard) ∧
    predictTemperatureCalibrated 1 p ≠ p := by
  have heq := predictTemperatureCalibrated_one p h0 h1
  refine ⟨heq, ?_⟩
  rw [heq]
  intro hcontra
  have h1e : (1:ℝ) + epsGuard ≠ 0 := by norm_num [epsGuard]
  have h2 := (div_eq_iff h1e).mp hcontra
  nlinarith [mul_pos h0 (show (0:ℝ) < epsGuard by norm_num [epsGuard])]

/-- Witness for the amended C6 at p = 0.5. -/
theorem temperature_one_scales_by_epsilon_witness :
    ((0:ℝ) < 1/2) ∧ ((1/2:ℝ) < 1) ∧
    predictTemperatureCalibrated 1 (1/2) ≠ 1/2 :=
  ⟨by norm_num, by norm_num,
   (temperature_one_scales_by_epsilon (1/2) (by norm_num) (by norm_num)).2⟩

/-- Candidate detection box in model-input coordinates, with its
confidence score (`boxes`/`scores` rows in
src/inference/app/detector.py). -/
structure DetBox where
  x1 : ℚ
  y1 : ℚ
  x2 : ℚ
  y2 : ℚ
  score : ℚ
deriving DecidableEq, Repr

/-- Box area (x2-x1)·(y2-y1) as computed in `non_max_suppression`
(detector.py line 42). -/
def DetBox.area (b : DetBox) : ℚ := (b.x2 - b.x1) * (b.y2 - b.y1)

/-- Pairwise IoU as computed inside the suppression loop
(detector.py lines 53-63): clamped intersection width/height, and the
1e-8 epsilon guard added to the union in the denominator. -/
def iou (a b : DetBox) : ℚ :=
  let w := max 0 (min a.x2 b.x2 - max a.x1 b.x1)
  let h := max 0 (min a.y2 b.y2 - max a.y1 b.y1)
  let intersection := w * h
  let union := a.area + b.area - intersection
  intersection / (union + 1/100000000)

/-- Insertion step of a score-descending insertion sort. -/
def insertByScoreDesc (b : DetBox) : List DetBox → List DetBox
  | [] => [b]
  | a :: rest =>
    if a.score < b.score then b :: a :: rest else a :: insertByScoreDesc b rest

/-- Sort by strictly descending score, embedding `scores.argsort()[::-1]`
(detector.py line 43). This insertion sort keeps equal-score boxes in
input order while the reversed stable numpy argsort reverses them; the
properties proved here are insensitive to the order among ties. -/
def sortByScoreDesc : List DetBox → List DetBox
  | [] => []
  | b :: rest => insertByScoreDesc b (sortByScoreDesc rest)

/-- Greedy suppression loop of `non_max_suppression`
(detector.py lines 45-66) on a score-descending list: keep the first
(highest-scoring) remaining box and drop every other remaining box whose
IoU with it exceeds the threshold, then repeat. The fuel argument only
makes the recursion structural: each iteration consumes at least one
element, so with fuel ≥ list length the fuel never runs out (see
`nmsLoop_fuel_irrelevant`). -/
def nmsLoop (iou_threshold : ℚ) : Nat → List DetBox → List DetBox
  | _, [] => []
  | 0, l => l
  | fuel + 1, b :: rest =>
    b :: nmsLoop iou_threshold fuel
      (rest.filter (fun c => iou b c ≤ iou_threshold))

/-- Embeds `non_max_suppression` (detector.py lines 22-68): sort the boxes
by descending score, then run the greedy suppression loop. -/
def non_max_suppression (iou_threshold : ℚ) (boxes : List DetBox) :
    List DetBox :=
  nmsLoop iou_threshold (sortByScoreDesc boxes).length (sortByScoreDesc boxes)

/-- Any sufficient fuel computes the same suppression result, so
`non_max_suppression` is the semantics of the unbounded while loop. -/
theorem nmsLoop_fuel_irrelevant (thr : ℚ) :
    ∀ (fuel₁ : Nat) (l : List DetBox) (fuel₂ : Nat), l.length ≤ fuel₁ →
      l.length ≤ fuel₂ → nmsLoop thr fuel₁ l = nmsLoop thr fuel₂ l := by
  intro fuel₁
  induction fuel₁ with
  | zero =>
    intro l fuel₂ h₁ _
    rw [Nat.le_zero, List.length_eq_zero] at h₁
    subst h₁
    cases fuel₂ <;> rfl
  | succ n ih =>
    intro l fuel₂ h₁ h₂
    cases l with
    | nil => cases fuel₂ <;> rfl
    | cons b rest =>
      cases fuel₂ with
      | zero => exact absurd h₂ (by simp)
      | succ m =>
        simp only [nmsLoop]
        congr 1
        exact ih _ m
          (le_trans (List.length_filter_le _ _) (Nat.le_of_succ_le_succ h₁))
          (le_trans (List.length_filter_le _ _) (Nat.le_of_succ_le_succ h₂))

/-- Membership is preserved by the descending insertion step. -/
theorem mem_insertByScoreDesc (c b : DetBox) (l : List DetBox) :
    c ∈ insertByScoreDesc b l ↔ c = b ∨ c ∈ l := by
  induction l with
  | nil => simp [insertByScoreDesc]
  | cons a rest ih =>
    simp only [insertByScoreDesc]
    split
    · simp
    · simp [ih]
      tauto

/-- Sorting by descending score preserves membership. -/
theorem mem_sortByScoreDesc (c : DetBox) (l : List DetBox) :
    c ∈ sortByScoreDesc l ↔ c ∈ l := by
  induction l with
  | nil => simp [sortByScoreDesc]
  | cons a rest ih => simp [sortByScoreDesc, mem_insertByScoreDesc, ih]

/-- Every box kept by the greedy suppression loop comes from its input. -/
theorem nmsLoop_subset (thr : ℚ) :
    ∀ (fuel : Nat) (l : List DetBox) (c : DetBox),
      c ∈ nmsLoop thr fuel l → c ∈ l := by
  intro fuel
  induction fuel with
  | zero =>
    intro l c h
    cases l with
    | nil => simp [nmsLoop] at h
    | cons b rest => simpa only [nmsLoop] using h
  | succ n ih =>
    intro l c h
    cases l with
    | nil => simp [nmsLoop] at h
    | cons b rest =>
      simp only [nmsLoop, List.mem_cons] at h
      rcases h with rfl | h
      · exact List.mem_cons_self _ _
      · exact List.mem_cons_of_mem _ (List.mem_of_mem_filter (ih _ _ h))

/-- Every box surviving `non_max_suppression` comes from its input. -/
theorem non_max_suppression_subset (thr : ℚ) (l : List DetBox) (c : DetBox)
    (h : c ∈ non_max_suppression thr l) : c ∈ l :=
  (mem_sortByScoreDesc c l).mp (nmsLoop_subset thr _ _ c h)

/-- Embeds the post-processing chain of `CXRDetector.predict`
(src/inference/app/detector.py lines 191-211): drop candidates below the
confidence threshold, return empty if none remain, apply non-maximum
suppression, and truncate to the top `max_boxes` by score when the kept
list is longer than that. -/
def CXRDetector.predict (conf_threshold iou_threshold : ℚ) (max_boxes : ℕ)
    (cands : List DetBox) : List DetBox :=
  let boxes := cands.filter (fun b => conf_threshold ≤ b.score)
  if boxes = [] then []
  else
    let kept := non_max_suppression iou_threshold boxes
    if max_boxes < kept.length then (sortByScoreDesc kept).take max_boxes
    else kept

/-- C8: for every detector input and configuration, the final box list has
length at most max_boxes, and every returned box passed the confidence
filter (the kept set is a subset of the confidence-filtered input). -/
theorem predict_bounded_and_subset (conf iouT : ℚ) (maxB : ℕ)
    (cands : List DetBox) :
    (CXRDetector.predict conf iouT maxB cands).length ≤ maxB ∧
    ∀ b ∈ CXRDetector.predict conf iouT maxB cands,
      b ∈ cands.filter (fun c => conf ≤ c.score) := by
  unfold CXRDetector.predict
  by_cases hempty : cands.filter (fun b => conf ≤ b.score) = []
  · simp [hempty]
  · simp only [if_neg hempty]
    by_cases htrunc : maxB <
        (non_max_suppression iouT
          (cands.filter (fun b => conf ≤ b.score))).length
    · simp only [if_pos htrunc]
      constructor
      · simp
      · intro b hb
        exact non_max_suppression_subset iouT _ b
          ((mem_sortByScoreDesc b _).mp (List.take_subset _ _ hb))
    · simp only [if_neg htrunc]
      exact ⟨Nat.le_of_not_lt htrunc,
        fun b hb => non_max_suppression_subset iouT _ b hb⟩

/-- C7: for two candidate boxes with distinct confidences (named so that
a has the higher score), if their computed IoU exceeds the threshold then
greedy suppression keeps exactly the higher-confidence box, in either
input order; if their IoU is at most the threshold, both boxes survive. -/
theorem nms_pair_spec (a b : DetBox) (thr : ℚ) (hab : b.score < a.score) :
    (thr < iou a b →
      non_max_suppression thr [a, b] = [a] ∧
      non_max_suppression thr [b, a] = [a]) ∧
    (iou a b ≤ thr →
      non_max_suppression thr [a, b] = [a, b] ∧
      non_max_suppression thr [b, a] = [a, b]) := by
  have hsort1 : sortByScoreDesc [a, b] = [a, b] := by
    simp [sortByScoreDesc, insertByScoreDesc, hab]
  have hsort2 : sortByScoreDesc [b, a] = [a, b] := by
    simp [sortByScoreDesc, insertByScoreDesc, not_lt.mpr (le_of_lt hab)]
  constructor
  · intro h
    have hfilter : [b].filter (fun c => iou a c ≤ thr) = [] := by
      simp [List.filter, not_le.mpr h]
    constructor <;>
      simp [non_max_suppression, hsort1, hsort2, nmsLoop, hfilter]
  · intro h
    have hfilter : [b].filter (fun c => iou a c ≤ thr) = [b] := by
      simp [List.filter, h]
    constructor <;>
      simp [non_max_suppression, hsort1, hsort2, nmsLoop, hfilter]

/-- Witness for C7: two unit boxes at the same location (IoU ≈ 1 > 0.5)
with scores 0.9 and 0.8: only the 0.9 box survives. -/
theorem nms_pair_spec_witness :
    ((8:ℚ)/10 < 9/10) ∧
    ((1:ℚ)/2 < iou ⟨0, 0, 1, 1, 9/10⟩ ⟨0, 0, 1, 1, 8/10⟩) ∧
    non_max_suppression (1/2) [⟨0, 0, 1, 1, 9/10⟩, ⟨0, 0, 1, 1, 8/10⟩] =
      [⟨0, 0, 1, 1, 9/10⟩] := by
  have hiou : (1:ℚ)/2 < iou ⟨0, 0, 1, 1, 9/10⟩ ⟨0, 0, 1, 1, 8/10⟩ := by
    norm_num [iou, DetBox.area, min_def, max_def]
  exact ⟨by norm_num, hiou,
    ((nms_pair_spec ⟨0, 0, 1, 1, 9/10⟩ ⟨0, 0, 1, 1, 8/10⟩ (1/2)
      (by norm_num)).1 hiou).1⟩
